import Mathlib

/-!
Shallow embedding of the MC-AP backend (src/backend) for specification
checking.  Each namespace embeds one route module:

* `Trends`      — src/backend/trends_routes.py
* `Listing`     — src/backend/product_listing_routes.py
* `Planner`     — src/backend/planner_routes.py (the active, uncommented version)
* `Dashboard`   — src/backend/dashboard_routes.py
* `PlannerLock` — the asyncio.Lock discipline of the planner endpoint

Python floats are modelled as rationals, Python dict keys that may be
absent as `Option`, exceptions as `Except`, and the LLM / search / random
collaborators as injected functions (the spec's §9 design notes call for
exactly this injection of the random source and the completion provider).
-/

namespace MCAP

/-! ### Trends module (src/backend/trends_routes.py) -/

namespace Trends

/-- Model of Python `round(x, 1)`: round to one decimal place. -/
def round1 (q : ℚ) : ℚ := (round (q * 10) : ℤ) / 10

/-- Value of a (non-empty) list of decimal digit characters as a natural. -/
def digitsToNat (l : List Char) : ℕ :=
  l.foldl (fun a c => a * 10 + (c.toNat - 48)) 0

/-- The pieces of a match of the regex on a numeric substring: whether a
minus sign was matched, the integer-part digits' value, and the
fractional-part digits (empty when the optional group did not match). -/
structure NumParts where
  neg : Bool
  intPart : ℕ
  fracDigits : List Char
deriving DecidableEq, Repr

/-- Try to match the regex pattern of get_trends, a sign then digits then an
optional dot-and-digits group, anchored at the start of the character list
(greedy, as Python's re matches it). -/
def matchNumAt (cs : List Char) : Option NumParts :=
  let neg : Bool := cs.head? = some '-'
  let body : List Char :=
    if cs.head? = some '+' ∨ cs.head? = some '-' then cs.tail else cs
  let ds := body.takeWhile Char.isDigit
  let rest := body.dropWhile Char.isDigit
  if ds.isEmpty then none
  else
    let fs : List Char :=
      if rest.head? = some '.' then rest.tail.takeWhile Char.isDigit else []
    some ⟨neg, digitsToNat ds, fs⟩

/-- Leftmost match of the numeric regex in a character list, as found by
Python's re.search. -/
def firstNum : List Char → Option NumParts
  | [] => none
  | c :: t =>
    match matchNumAt (c :: t) with
    | some p => some p
    | none => firstNum t

/-- The rational value of a matched numeric substring: sign applied to
integer part plus decimal fraction. -/
def partsValue (p : NumParts) : ℚ :=
  (if p.neg then -1 else 1) *
    ((p.intPart : ℚ) + (digitsToNat p.fracDigits : ℚ) / 10 ^ p.fracDigits.length)

/-- Embeds the inner extraction in get_trends step 4:
re.search for the first numeric substring of the change_pct string, then
round(float(...), 1); `none` when no numeric substring exists. -/
def extractPct (s : String) : Option ℚ :=
  (firstNum s.toList).map (fun p => round1 (partsValue p))

/-- The popularity bucket shared by assign_random_metrics and the inline
branch of get_trends: pct >= 35 gives High/85, pct >= 15 gives Medium/55,
otherwise Low/20. -/
def bucket (pct : ℚ) : String × ℕ :=
  if pct ≥ 35 then ("High 🔥", 85)
  else if pct ≥ 15 then ("Medium ⚡", 55)
  else ("Low ❄️", 20)

/-- Embeds assign_random_metrics: the random draw (`random.uniform(3.0, 65.0)`)
is injected as the argument, rounded to one decimal, then bucketed. -/
def assign_random_metrics (rand : ℚ) : ℚ × String × ℕ :=
  let pct := round1 rand
  (pct, bucket pct)

/-- One parsed trend object as produced by json.loads: the keys read by the
post-processing loop, each `Option` because the model may omit it (an absent
or non-list value for the four list keys is modelled as `none`). -/
structure TrendIn where
  city : Option String
  trend : Option String
  change_pct : Option String
  popularity : Option String
  features : Option (List String)
  competitors : Option (List String)
  local_hotspots : Option (List String)
  tips : Option (List String)
deriving DecidableEq, Repr

/-- A trend object after the post-processing loop of get_trends. -/
structure TrendOut where
  city : Option String
  trend : Option String
  pct_change : ℚ
  change_pct : String
  popularity_score : ℕ
  popularity : String
  features : List String
  competitors : List String
  local_hotspots : List String
  tips : List String
deriving DecidableEq, Repr

/-- Renders a one-decimal rational the way Python formats the float in
f-string interpolation (e.g. 150 prints as "150.0", 45.2 as "45.2"). -/
def formatPct (q : ℚ) : String :=
  let k : ℤ := round (q * 10)
  (if k < 0 then "-" else "") ++ toString (k.natAbs / 10) ++ "." ++ toString (k.natAbs % 10)

/-- Embeds step 4 of get_trends for one trend object: extract a numeric pct
from change_pct if possible, otherwise use the injected random draw; attach
pct_change, change_pct, popularity_score; keep the model's popularity label
when present (trend.get with the computed label as default); default the four
list keys to []. -/
def processTrend (rand : ℚ) (t : TrendIn) : TrendOut :=
  let pctOpt : Option ℚ :=
    match t.change_pct with
    | some s => extractPct s
    | none => none
  let m : ℚ × String × ℕ :=
    match pctOpt with
    | none => assign_random_metrics rand
    | some pct => (pct, bucket pct)
  { city := t.city
    trend := t.trend
    pct_change := m.1
    change_pct := formatPct m.1 ++ "%"
    popularity_score := m.2.2
    popularity := t.popularity.getD m.2.1
    features := t.features.getD []
    competitors := t.competitors.getD []
    local_hotspots := t.local_hotspots.getD []
    tips := t.tips.getD [] }

/-- One element of the returned trends list: either a processed trend object,
or the per-city failure record `{city, error}`. -/
inductive TrendResult
  | record (r : TrendOut)
  | failure (city err : String)
deriving DecidableEq, Repr

/-- Embeds the get_trends endpoint loop.  The per-city search + LLM + parse
pipeline (steps 1-3, any of which may raise) is injected as `outcome`; the
random source is injected as `rand`, indexed by city and trend position.  A
failing city contributes one failure record; a succeeding city contributes
one processed record per parsed trend. -/
def get_trends (outcome : String → Except String (List TrendIn))
    (rand : String → ℕ → ℚ) (cities : List String) : List TrendResult :=
  (cities.map (fun city =>
    match outcome city with
    | .error e => [TrendResult.failure city e]
    | .ok parsed =>
        parsed.enum.map (fun p => TrendResult.record (processTrend (rand city p.1) p.2)))).flatten

/-- A trend object the model could return for a succeeding city: all keys
present and well-formed. -/
def sampleTrend : TrendIn :=
  { city := some "Delhi", trend := some "Quiet luxury", change_pct := some "45.2%",
    popularity := some "High 🔥", features := some ["Muted tones"],
    competitors := some ["Zara"], local_hotspots := some ["Sarojini Nagar"],
    tips := some ["Stock pastel kurtas"] }

/-- A second trend object for the same succeeding city. -/
def sampleTrend2 : TrendIn :=
  { city := some "Delhi", trend := some "Oversized fits", change_pct := some "12%",
    popularity := some "Low ❄️", features := some ["Drop shoulders"],
    competitors := some ["H&M"], local_hotspots := some ["Lajpat Nagar"],
    tips := some ["Bundle with belts"] }

/-- A trend object whose model-supplied percentage is out of range and whose
model-supplied popularity label contradicts it. -/
def badTrend : TrendIn :=
  { city := some "Delhi", trend := some "Chikankari", change_pct := some "150%",
    popularity := some "Low ❄️", features := none, competitors := none,
    local_hotspots := none, tips := none }

end Trends

/-! ### Listing module (src/backend/product_listing_routes.py) -/

namespace Listing

/-- Pydantic model SEOContent. -/
structure SEOContent where
  title : String
  description : String
  tags : List String
  keywords : List String
deriving DecidableEq, Repr

/-- Pydantic model WhatsAppContent. -/
structure WhatsAppContent where
  caption : String
  promotional_message : String
deriving DecidableEq, Repr

/-- Pydantic model ConversationalContent. -/
structure ConversationalContent where
  search_phrases : List String
deriving DecidableEq, Repr

/-- Pydantic model GeneratedContent: three optional sub-objects plus the
category string. -/
structure GeneratedContent where
  seo_content : Option SEOContent := none
  whatsapp_content : Option WhatsAppContent := none
  conversational_content : Option ConversationalContent := none
  category : String
deriving DecidableEq, Repr

/-- The parsed content_options_str object: which of the three content types
were requested. -/
structure ContentOptions where
  seo : Bool
  whatsapp : Bool
  conversational : Bool
deriving DecidableEq, Repr

/-- Embeds generate_listing_endpoint's task assembly and result gathering.
Each sub-generation's outcome (its generate_content_part call, which returns
None on any internal failure) is injected as an `Option`; a task is only
scheduled for a requested content type, so an unrequested slot can never be
filled.  If every slot of the assembled GeneratedContent is empty the
endpoint raises HTTP 500, otherwise it returns the content. -/
def generate_listing_endpoint (opts : ContentOptions) (category : String)
    (seoResult : Option SEOContent) (whatsappResult : Option WhatsAppContent)
    (conversationalResult : Option ConversationalContent) :
    Except ℕ GeneratedContent :=
  let s := if opts.seo then seoResult else none
  let w := if opts.whatsapp then whatsappResult else none
  let c := if opts.conversational then conversationalResult else none
  if s.isSome || w.isSome || c.isSome then
    .ok { seo_content := s, whatsapp_content := w, conversational_content := c,
          category := category }
  else .error 500

/-- Embeds the inner translate_text of translate_listing_endpoint: empty text
is returned as is, otherwise the completion client's translation (injected as
tr) is returned. -/
def translate_text (tr : String → String) (text : String) : String :=
  if text = "" then text else tr text

/-- Embeds translate_listing_endpoint's success path: translate the seo
title and description, the whatsapp caption and promotional_message, and
each conversational search phrase, leaving every other field alone. -/
def translate_listing_endpoint (tr : String → String) (content : GeneratedContent) :
    GeneratedContent :=
  { content with
    seo_content := content.seo_content.map (fun s =>
      { s with title := translate_text tr s.title,
               description := translate_text tr s.description }),
    whatsapp_content := content.whatsapp_content.map (fun w =>
      { w with caption := translate_text tr w.caption,
               promotional_message := translate_text tr w.promotional_message }),
    conversational_content := content.conversational_content.map (fun c =>
      { c with search_phrases := c.search_phrases.map (translate_text tr) }) }

/-- A sample SEO sub-generation result. -/
def sampleSEO : SEOContent :=
  { title := "Banarasi Silk Saree", description := "Handwoven zari work saree",
    tags := ["saree", "silk"], keywords := ["banarasi saree online"] }

end Listing

/-! ### Planner module (src/backend/planner_routes.py, the active version) -/

namespace Planner

/-- Pydantic model Festival. -/
structure Festival where
  id : ℤ
  name : String
  date : String
  daysLeft : ℤ := 0
  urgency : String
  items : List String
  expectedSales : String
  preparation : String
  color : String
deriving DecidableEq, Repr

/-- Pydantic model RecommendedProduct. -/
structure RecommendedProduct where
  id : ℤ
  name : String
  demand : String
  profit : String
  units : String
  trend : String
  yourPrice : String
  stockLevel : String
  urgency : String
deriving DecidableEq, Repr

/-- Pydantic model LocalDemand. -/
structure LocalDemand where
  id : ℤ
  area : String
  product : String
  demand : String
  distance : String
  avgSpend : String
  shoppers : ℤ
  peakHours : String
deriving DecidableEq, Repr

/-- Pydantic model AvoidProduct. -/
structure AvoidProduct where
  id : ℤ
  name : String
  reason : String
  suggestion : String
  returnRate : String
  impact : String
  lossAmount : String
deriving DecidableEq, Repr

/-- Pydantic model AIRecommendation. -/
structure AIRecommendation where
  id : ℤ
  product : String
  action : String
  priority : String
  reason : String
  confidence : String
  potentialRevenue : String
deriving DecidableEq, Repr

/-- Pydantic model PlannerResponse. -/
structure PlannerResponse where
  upcomingFestivals : List Festival := []
  topProductsToStock : List RecommendedProduct := []
  nearbyDemand : List LocalDemand := []
  avoidProducts : List AvoidProduct := []
  aiRecommendations : List AIRecommendation := []
deriving DecidableEq, Repr

/-- A proleptic Gregorian calendar date, as held by Python's datetime.date. -/
structure Date where
  year : ℕ
  month : ℕ
  day : ℕ
deriving DecidableEq, Repr

/-- Gregorian leap-year rule. -/
def isLeap (y : ℕ) : Bool :=
  y % 4 = 0 && (y % 100 ≠ 0 || y % 400 = 0)

/-- Length of a month in the Gregorian calendar. -/
def daysInMonth (y m : ℕ) : ℕ :=
  if m = 2 then (if isLeap y then 29 else 28)
  else if m = 4 ∨ m = 6 ∨ m = 9 ∨ m = 11 then 30
  else 31

/-- Value of a list of decimal digit characters as a natural number. -/
def digitsVal (l : List Char) : ℕ :=
  l.foldl (fun a c => a * 10 + (c.toNat - 48)) 0

/-- Embeds datetime.strptime(s, "%Y-%m-%d").date(): a four digit year, a
dash, a one-or-two digit month in 1..12, a dash, a one-or-two digit day, end
of string; then datetime's own validation of the day against the month
length and of the year range.  Returns none exactly when strptime or the
date constructor raises. -/
def parseYMD (s : String) : Option Date :=
  let cs := s.toList
  let yrun := cs.takeWhile Char.isDigit
  let rest1 := cs.dropWhile Char.isDigit
  if yrun.length ≠ 4 then none
  else if rest1.head? ≠ some '-' then none
  else
    let afterY := rest1.tail
    let mrun := afterY.takeWhile Char.isDigit
    let rest2 := afterY.dropWhile Char.isDigit
    if mrun.length = 0 ∨ 2 < mrun.length then none
    else if digitsVal mrun = 0 ∨ 12 < digitsVal mrun then none
    else if rest2.head? ≠ some '-' then none
    else
      let afterM := rest2.tail
      let drun := afterM.takeWhile Char.isDigit
      let rest3 := afterM.dropWhile Char.isDigit
      if drun.length = 0 ∨ 2 < drun.length then none
      else if digitsVal drun = 0 then none
      else if rest3 ≠ [] then none
      else if digitsVal yrun = 0 then none
      else if daysInMonth (digitsVal yrun) (digitsVal mrun) < digitsVal drun then none
      else some ⟨digitsVal yrun, digitsVal mrun, digitsVal drun⟩

/-- Serial day number of a Gregorian date (days since 1970-01-01), the
standard days-from-civil computation; embeds the value datetime.date
subtraction is defined over. -/
def toRataDie (dt : Date) : ℤ :=
  let y : ℤ := if dt.month ≤ 2 then (dt.year : ℤ) - 1 else (dt.year : ℤ)
  let era : ℤ := y / 400
  let yoe : ℤ := y - era * 400
  let mp : ℤ := ((dt.month : ℤ) + 9) % 12
  let doy : ℤ := (153 * mp + 2) / 5 + (dt.day : ℤ) - 1
  let doe : ℤ := yoe * 365 + yoe / 4 - yoe / 100 + doy
  era * 146097 + doe - 719468

/-- (target - today).days of Python's date subtraction. -/
def daysBetween (today target : Date) : ℤ :=
  toRataDie target - toRataDie today

/-- Month names as printed by strftime %B. -/
def monthName : ℕ → String
  | 1 => "January"
  | 2 => "February"
  | 3 => "March"
  | 4 => "April"
  | 5 => "May"
  | 6 => "June"
  | 7 => "July"
  | 8 => "August"
  | 9 => "September"
  | 10 => "October"
  | 11 => "November"
  | 12 => "December"
  | _ => ""

/-- Two-digit zero padding, as printed by strftime %d. -/
def pad2 (n : ℕ) : String :=
  if n < 10 then "0" ++ toString n else toString n

/-- Embeds dt_obj.strftime("%B %d, %Y"). -/
def formatLong (d : Date) : String :=
  monthName d.month ++ " " ++ pad2 d.day ++ ", " ++ toString d.year

/-- Embeds one iteration of the festival post-processing loop of
get_full_planner_report: on a parse success the date is reformatted and
daysLeft recomputed; on a parse failure (the except branch) the festival is
appended unchanged. -/
def processFestival (today : Date) (f : Festival) : Festival :=
  match parseYMD f.date with
  | some d => { f with date := formatLong d, daysLeft := daysBetween today d }
  | none => f

/-- The whole post-processing step of get_full_planner_report: the festival
list is mapped through processFestival, the other four lists are returned
as parsed. -/
def postProcessReport (today : Date) (resp : PlannerResponse) : PlannerResponse :=
  { resp with upcomingFestivals := resp.upcomingFestivals.map (processFestival today) }

/-- A festival record whose date string parses as %Y-%m-%d. -/
def republicDay : Festival :=
  { id := 1, name := "Republic Day", date := "2025-01-26", urgency := "high",
    items := ["Flags", "Tricolor sarees"], expectedSales := "High",
    preparation := "Stock tricolor dupattas", color := "saffron" }

/-- A festival record whose date string does not parse as %Y-%m-%d. -/
def bogusFestival : Festival :=
  { id := 2, name := "Diwali", date := "Nov 1, 2025", urgency := "medium",
    items := ["Diyas"], expectedSales := "Very high", preparation := "Order lights",
    color := "gold" }

end Planner

/-! ### Dashboard module (src/backend/dashboard_routes.py) -/

namespace Dashboard

/-- Pydantic model AISummary: the four summary fields. -/
structure AISummary where
  focus : String
  opportunity : String
  caution : String
  action : String
deriving DecidableEq, Repr

/-- The hardcoded fallback default summary of get_ai_dashboard_summary. -/
def fallbackSummary : AISummary :=
  { focus := "Maintain steady stock and monitor demand patterns across top categories.",
    opportunity := "Capitalize on trending and weather-relevant products this week.",
    caution := "Avoid overstocking slow-moving or seasonal items nearing demand decline.",
    action := "Review key listings and adjust pricing or bundles to improve visibility." }

/-- Does the character list start with the given needle. -/
def leadsWith : List Char → List Char → Bool
  | [], _ => true
  | _ :: _, [] => false
  | a :: as, b :: bs => a = b && leadsWith as bs

/-- Does the haystack contain the needle as a contiguous substring; embeds
Python's `needle in haystack`. -/
def hasSub (needle : List Char) : List Char → Bool
  | [] => needle.isEmpty
  | c :: t => leadsWith needle (c :: t) || hasSub needle t

/-- String form of the substring test. -/
def strContainsSub (hay needle : String) : Bool :=
  hasSub needle.toList hay.toList

/-- Python str.lower, character by character. -/
def toLowerStr (s : String) : String := ⟨s.data.map Char.toLower⟩

/-- The rate-limit test of the except branch:
"rate_limit" in err_str.lower() or "429" in err_str. -/
def isRateLimitError (err : String) : Bool :=
  strContainsSub (toLowerStr err) "rate_limit" || strContainsSub err "429"

/-- What one run of the endpoint did: the summary it returned, how many
completion attempts it made, and how long it slept between them. -/
structure SummaryRun where
  result : AISummary
  attempts : ℕ
  sleptSeconds : ℕ
deriving DecidableEq, Repr

/-- Embeds get_ai_dashboard_summary's invoke/except logic.  The outcome of
the k-th chain.ainvoke call is injected as `attempt k`.  A first success
returns directly; a rate-limited first failure sleeps 90 seconds and retries
exactly once, returning the retry's result or, if it also fails, the
fallback; any other first failure returns the fallback at once. -/
def get_ai_dashboard_summary (attempt : ℕ → Except String AISummary) : SummaryRun :=
  match attempt 0 with
  | .ok s => ⟨s, 1, 0⟩
  | .error e =>
    if isRateLimitError e then
      match attempt 1 with
      | .ok s => ⟨s, 2, 90⟩
      | .error _ => ⟨fallbackSummary, 2, 90⟩
    else ⟨fallbackSummary, 1, 0⟩

end Dashboard

/-! ### The planner endpoint's asyncio.Lock discipline -/

namespace PlannerLock

/-- Where one planner-report request stands: not yet holding the lock, inside
the async-with block (which contains the provider call), or finished. -/
inductive Phase
  | waiting
  | generating
  | finished
deriving DecidableEq

/-- One scheduler step over n concurrent planner-report requests.  A waiting
request may enter the async-with block only when no request is inside it
(asyncio.Lock grants acquire only while unlocked); a request inside the
block may leave it. -/
def step {n : ℕ} (s t : Fin n → Phase) : Prop :=
  (∃ i, s i = .waiting ∧ (∀ j, s j ≠ .generating) ∧
    t = Function.update s i .generating) ∨
  (∃ i, s i = .generating ∧ t = Function.update s i .finished)

/-- All n requests start outside the lock. -/
def start (n : ℕ) : Fin n → Phase := fun _ => .waiting

/-- States the n-request system can reach. -/
def Reachable {n : ℕ} (s : Fin n → Phase) : Prop :=
  Relation.ReflTransGen step (start n) s

end PlannerLock

end MCAP

/-! ## Theorems -/

namespace MCAP

namespace Trends

/-- The score attached to a processed trend is always the bucket score of the
pct the same branch attached, whichever branch ran. -/
theorem processTrend_score_eq (rv : ℚ) (t : TrendIn) :
    (processTrend rv t).popularity_score = (bucket (processTrend rv t).pct_change).2 := by
  rcases t with ⟨city, trend, cp, pop, fe, co, lh, ti⟩
  cases cp with
  | none => simp [processTrend, assign_random_metrics]
  | some s =>
    cases h : extractPct s with
    | none => simp [processTrend, assign_random_metrics, h]
    | some pct => simp [processTrend, h]

/-- When the model supplied no popularity label, the label attached to a
processed trend is the bucket label of its pct_change. -/
theorem processTrend_label_eq (rv : ℚ) (t : TrendIn) (hpop : t.popularity = none) :
    (processTrend rv t).popularity = (bucket (processTrend rv t).pct_change).1 := by
  rcases t with ⟨city, trend, cp, pop, fe, co, lh, ti⟩
  cases hpop
  cases cp with
  | none => simp [processTrend, assign_random_metrics]
  | some s =>
    cases h : extractPct s with
    | none => simp [processTrend, assign_random_metrics, h]
    | some pct => simp [processTrend, h]

/-- Rounding to one decimal keeps a value inside [3, 65]. -/
theorem round1_mem_Icc {q : ℚ} (h3 : 3 ≤ q) (h65 : q ≤ 65) :
    3 ≤ round1 q ∧ round1 q ≤ 65 := by
  have hlo : (30 : ℤ) ≤ round (q * 10) := by
    rw [round_eq]
    exact Int.le_floor.mpr (by push_cast; linarith)
  have hhi : round (q * 10) ≤ 650 := by
    rw [round_eq]
    have : q * 10 + 1 / 2 < (651 : ℚ) := by linarith
    exact Int.lt_add_one_iff.mp (Int.floor_lt.mpr (by push_cast; linarith))
  constructor
  · have : ((30 : ℤ) : ℚ) ≤ ((round (q * 10) : ℤ) : ℚ) := by exact_mod_cast hlo
    unfold round1; push_cast at this ⊢; linarith
  · have : ((round (q * 10) : ℤ) : ℚ) ≤ ((650 : ℤ) : ℚ) := by exact_mod_cast hhi
    unfold round1; push_cast at this ⊢; linarith

/-- In the random-fallback branch the attached pct stays in [3, 65] whenever
the injected draw does (random.uniform(3.0, 65.0) guarantees the draw). -/
theorem processTrend_pct_range (rv : ℚ) (t : TrendIn) (h3 : 3 ≤ rv) (h65 : rv ≤ 65)
    (hc : t.change_pct = none) :
    3 ≤ (processTrend rv t).pct_change ∧ (processTrend rv t).pct_change ≤ 65 := by
  rcases t with ⟨city, trend, cp, pop, fe, co, lh, ti⟩
  cases hc
  simpa [processTrend, assign_random_metrics] using round1_mem_Icc h3 h65

/-- Every non-error record of a trends response is the post-processing of
some parsed trend object with some random draw. -/
theorem record_mem_processed {outcome : String → Except String (List TrendIn)}
    {rand : String → ℕ → ℚ} {cities : List String} {r : TrendOut}
    (h : TrendResult.record r ∈ get_trends outcome rand cities) :
    ∃ rv t, r = processTrend rv t := by
  unfold get_trends at h
  rw [List.mem_flatten] at h
  obtain ⟨l, hl, hrl⟩ := h
  rw [List.mem_map] at hl
  obtain ⟨city, _, rfl⟩ := hl
  cases hoc : outcome city with
  | error e => rw [hoc] at hrl; simp at hrl
  | ok ts =>
    rw [hoc] at hrl
    rw [List.mem_map] at hrl
    obtain ⟨p, _, hpe⟩ := hrl
    exact ⟨rand city p.1, p.2, (TrendResult.record.injEq _ _).mp hpe.symm⟩

/-- C2: the percentage bucketing is a pure total function with
pct >= 35 giving the High label and score 85, 15 <= pct < 35 giving the
Medium label and score 55, and pct < 15 giving the Low label and score 20,
each boundary inclusive on the lower edge. -/
theorem bucket_thresholds (pct : ℚ) :
    (35 ≤ pct → bucket pct = ("High 🔥", 85)) ∧
    (15 ≤ pct → pct < 35 → bucket pct = ("Medium ⚡", 55)) ∧
    (pct < 15 → bucket pct = ("Low ❄️", 20)) := by
  refine ⟨fun h => ?_, fun h1 h2 => ?_, fun h => ?_⟩
  · rw [bucket, if_pos (by linarith : pct ≥ 35)]
  · rw [bucket, if_neg (by linarith : ¬ pct ≥ 35), if_pos (by linarith : pct ≥ 15)]
  · rw [bucket, if_neg (by linarith : ¬ pct ≥ 35), if_neg (by linarith : ¬ pct ≥ 15)]

/-- C2 witness: the three buckets at 40, 20 and 7. -/
theorem bucket_thresholds_witness :
    bucket 40 = ("High 🔥", 85) ∧ bucket 20 = ("Medium ⚡", 55) ∧
      bucket 7 = ("Low ❄️", 20) :=
  ⟨(bucket_thresholds 40).1 (by norm_num),
   (bucket_thresholds 20).2.1 (by norm_num) (by norm_num),
   (bucket_thresholds 7).2.2 (by norm_num)⟩

/-- C3 counterexample: pct = 20 lies in [0, 35) yet buckets to the Medium
label with score 55, not Low with 20. -/
theorem bucket_low_range_cex :
    ((0 : ℚ) ≤ 20 ∧ (20 : ℚ) < 35) ∧ bucket 20 = ("Medium ⚡", 55) ∧
      bucket 20 ≠ ("Low ❄️", 20) := by
  have h : bucket 20 = ("Medium ⚡", 55) := by
    rw [bucket, if_neg (by norm_num : ¬ (20 : ℚ) ≥ 35), if_pos (by norm_num : (20 : ℚ) ≥ 15)]
  exact ⟨by norm_num, h, by rw [h]; decide⟩

/-- C3 (amended): the Low bucket (label Low, score 20) is exactly [0, 15);
the boundary pct = 15.0 yields Medium. -/
theorem bucket_low_below_fifteen (pct : ℚ) :
    (0 ≤ pct → pct < 15 → bucket pct = ("Low ❄️", 20)) ∧
      bucket 15 = ("Medium ⚡", 55) := by
  constructor
  · intro _ h
    rw [bucket, if_neg (by linarith : ¬ pct ≥ 35), if_neg (by linarith : ¬ pct ≥ 15)]
  · rw [bucket, if_neg (by norm_num : ¬ (15 : ℚ) ≥ 35), if_pos (by norm_num : (15 : ℚ) ≥ 15)]

/-- C3 amended-claim witness at pct = 7. -/
theorem bucket_low_below_fifteen_witness :
    bucket 7 = ("Low ❄️", 20) ∧ bucket 15 = ("Medium ⚡", 55) :=
  ⟨(bucket_low_below_fifteen 7).1 (by norm_num) (by norm_num),
   (bucket_low_below_fifteen 7).2⟩

/-- The model string "150%" extracts as the number 150. -/
theorem extractPct_150 : extractPct "150%" = some 150 := by
  simp only [extractPct]
  rw [show firstNum "150%".toList = some ⟨false, 150, []⟩ from by decide]
  simp only [Option.map_some']
  norm_num [round1, partsValue, digitsToNat, round_eq]

/-- C1 (amended): in every successful trends response each record's
popularity_score is bucket-consistent with its pct_change; moreover whenever
the model omitted the popularity label the attached label is also
bucket-consistent, and whenever the model omitted change_pct the attached
pct stays inside [3, 65] provided the injected random draw does.  The
original [0,70] range and unconditional label consistency fail: a
model-supplied percentage is attached unclamped and a model-supplied label
is preserved verbatim. -/
theorem trends_bucket_consistency (outcome : String → Except String (List TrendIn))
    (rand : String → ℕ → ℚ) (cities : List String) (r : TrendOut)
    (h : TrendResult.record r ∈ get_trends outcome rand cities) :
    r.popularity_score = (bucket r.pct_change).2 ∧
    (∀ rv t, t.popularity = none →
      (processTrend rv t).popularity = (bucket (processTrend rv t).pct_change).1) ∧
    (∀ rv t, 3 ≤ rv → rv ≤ 65 → t.change_pct = none →
      3 ≤ (processTrend rv t).pct_change ∧ (processTrend rv t).pct_change ≤ 65) := by
  obtain ⟨rv, t, rfl⟩ := record_mem_processed h
  exact ⟨processTrend_score_eq rv t,
    fun rv t hpop => processTrend_label_eq rv t hpop,
    fun rv t h3 h65 hc => processTrend_pct_range rv t h3 h65 hc⟩

/-- C1 amended-claim witness on a one-city response. -/
theorem trends_bucket_consistency_witness :
    (processTrend 30 sampleTrend).popularity_score =
        (bucket (processTrend 30 sampleTrend).pct_change).2 ∧
    (∀ rv t, t.popularity = none →
      (processTrend rv t).popularity = (bucket (processTrend rv t).pct_change).1) ∧
    (∀ rv t, 3 ≤ rv → rv ≤ 65 → t.change_pct = none →
      3 ≤ (processTrend rv t).pct_change ∧ (processTrend rv t).pct_change ≤ 65) :=
  trends_bucket_consistency (fun _ => .ok [sampleTrend]) (fun _ _ => 30) ["Delhi"]
    (processTrend 30 sampleTrend) (by simp [get_trends])

/-- C1 counterexample: the model supplies change_pct "150%" with label Low;
the successful response's record then has pct_change 150, outside [0,70],
and keeps the Low label while carrying the High bucket score 85. -/
theorem trends_invariant_cex :
    get_trends (fun _ => .ok [badTrend]) (fun _ _ => 30) ["Delhi"]
        = [TrendResult.record (processTrend 30 badTrend)] ∧
    (processTrend 30 badTrend).pct_change = 150 ∧
    ¬ (processTrend 30 badTrend).pct_change ≤ 70 ∧
    (processTrend 30 badTrend).popularity = "Low ❄️" ∧
    (processTrend 30 badTrend).popularity_score = 85 := by
  have hpct : (processTrend 30 badTrend).pct_change = 150 := by
    simp [processTrend, badTrend, extractPct_150]
  refine ⟨by simp [get_trends], hpct, ?_, ?_, ?_⟩
  · rw [hpct]; norm_num
  · simp [processTrend, badTrend, extractPct_150]
  · have := processTrend_score_eq 30 badTrend
    rw [hpct] at this
    rw [this, bucket, if_pos (by norm_num : (150 : ℚ) ≥ 35)]

/-- C4 (amended): in a two-city request where one city fails and the other
succeeds — whichever of the two positions the failing city occupies — the
response holds exactly one {city, error} record for the failing city, in
that city's position, and one processed record per trend parsed for the
succeeding city, so its length is 1 plus that trend count (2 exactly when
one trend was parsed); the failure does not abort the other city's
processing. -/
theorem trends_partial_failure (outcome : String → Except String (List TrendIn))
    (rand : String → ℕ → ℚ) (cf cs e : String) (ts : List TrendIn)
    (hf : outcome cf = .error e) (hs : outcome cs = .ok ts) :
    get_trends outcome rand [cf, cs] =
      TrendResult.failure cf e ::
        ts.enum.map (fun p => TrendResult.record (processTrend (rand cs p.1) p.2)) ∧
    (get_trends outcome rand [cf, cs]).length = 1 + ts.length ∧
    get_trends outcome rand [cs, cf] =
      ts.enum.map (fun p => TrendResult.record (processTrend (rand cs p.1) p.2)) ++
        [TrendResult.failure cf e] ∧
    (get_trends outcome rand [cs, cf]).length = ts.length + 1 := by
  refine ⟨?_, ?_, ?_, ?_⟩
  · simp [get_trends, hf, hs]
  · simp [get_trends, hf, hs, Nat.add_comm]
  · simp [get_trends, hf, hs]
  · simp [get_trends, hf, hs]

/-- C4 amended-claim witness: a failing city plus a one-trend succeeding
city give a two-element response in both request orders, with the error
record in the failing city's position. -/
theorem trends_partial_failure_witness :
    get_trends
        (fun c => if c = "Agra" then .error "SerpAPI quota exhausted" else .ok [sampleTrend])
        (fun _ _ => 30) ["Agra", "Delhi"] =
      [TrendResult.failure "Agra" "SerpAPI quota exhausted",
        TrendResult.record (processTrend 30 sampleTrend)] ∧
    (get_trends
        (fun c => if c = "Agra" then .error "SerpAPI quota exhausted" else .ok [sampleTrend])
        (fun _ _ => 30) ["Agra", "Delhi"]).length = 2 ∧
    get_trends
        (fun c => if c = "Agra" then .error "SerpAPI quota exhausted" else .ok [sampleTrend])
        (fun _ _ => 30) ["Delhi", "Agra"] =
      [TrendResult.record (processTrend 30 sampleTrend),
        TrendResult.failure "Agra" "SerpAPI quota exhausted"] ∧
    (get_trends
        (fun c => if c = "Agra" then .error "SerpAPI quota exhausted" else .ok [sampleTrend])
        (fun _ _ => 30) ["Delhi", "Agra"]).length = 2 := by
  have h := trends_partial_failure
    (fun c => if c = "Agra" then .error "SerpAPI quota exhausted" else .ok [sampleTrend])
    (fun _ _ => 30) "Agra" "Delhi" "SerpAPI quota exhausted" [sampleTrend]
    (by simp) (by simp)
  exact ⟨h.1, h.2.1, h.2.2.1, h.2.2.2⟩

/-- C4 counterexample: one failing city and one succeeding city whose model
reply parses to two trends give a response of length 3, not 2. -/
theorem trends_two_cities_length_cex :
    get_trends (fun c => if c = "Agra" then .error "boom" else .ok [sampleTrend, sampleTrend2])
        (fun _ _ => 30) ["Agra", "Delhi"] =
      [TrendResult.failure "Agra" "boom",
        TrendResult.record (processTrend 30 sampleTrend),
        TrendResult.record (processTrend 30 sampleTrend2)] ∧
    (get_trends (fun c => if c = "Agra" then .error "boom" else .ok [sampleTrend, sampleTrend2])
        (fun _ _ => 30) ["Agra", "Delhi"]).length = 3 := by
  constructor <;> simp [get_trends, List.enum, List.enumFrom]

end Trends

namespace Listing

/-- C5: the listing endpoint succeeds exactly when at least one requested
sub-generation succeeded; on success each slot holds its sub-generation's
result exactly when that content type was requested and its generation
succeeded (failed or unrequested slots are null) and the category is echoed;
when every requested sub-generation failed the endpoint raises HTTP 500. -/
theorem listing_success_iff_some_slot (opts : ContentOptions) (category : String)
    (seoResult : Option SEOContent) (whatsappResult : Option WhatsAppContent)
    (conversationalResult : Option ConversationalContent) :
    ((∃ g, generate_listing_endpoint opts category seoResult whatsappResult
        conversationalResult = .ok g) ↔
      (opts.seo = true ∧ seoResult.isSome = true) ∨
      (opts.whatsapp = true ∧ whatsappResult.isSome = true) ∨
      (opts.conversational = true ∧ conversationalResult.isSome = true)) ∧
    (∀ g, generate_listing_endpoint opts category seoResult whatsappResult
        conversationalResult = .ok g →
      g.seo_content = (if opts.seo then seoResult else none) ∧
      g.whatsapp_content = (if opts.whatsapp then whatsappResult else none) ∧
      g.conversational_content = (if opts.conversational then conversationalResult else none) ∧
      g.category = category) ∧
    ((opts.seo = true → seoResult = none) →
      (opts.whatsapp = true → whatsappResult = none) →
      (opts.conversational = true → conversationalResult = none) →
      generate_listing_endpoint opts category seoResult whatsappResult
        conversationalResult = .error 500) := by
  rcases opts with ⟨so, wo, co⟩
  cases so <;> cases wo <;> cases co <;>
    cases seoResult <;> cases whatsappResult <;> cases conversationalResult <;>
    simp [generate_listing_endpoint]

/-- C5 witness: requesting only seo with a successful SEO sub-generation
yields seo_content filled and the other two slots null; requesting all
three with every sub-generation failed yields HTTP 500. -/
theorem listing_success_iff_some_slot_witness :
    generate_listing_endpoint ⟨true, false, false⟩ "Sarees" (some sampleSEO) none none =
      .ok { seo_content := some sampleSEO, whatsapp_content := none,
            conversational_content := none, category := "Sarees" } ∧
    generate_listing_endpoint ⟨true, true, true⟩ "Sarees" none none none = .error 500 := by
  constructor
  · have h := (listing_success_iff_some_slot ⟨true, false, false⟩ "Sarees"
      (some sampleSEO) none none).1.mpr (Or.inl ⟨rfl, rfl⟩)
    obtain ⟨g, hg⟩ := h
    have hf := (listing_success_iff_some_slot ⟨true, false, false⟩ "Sarees"
      (some sampleSEO) none none).2.1 g hg
    rw [hg]
    rcases g with ⟨gs, gw, gc, gcat⟩
    simp only at hf
    simp [hf.1, hf.2.1, hf.2.2.1, hf.2.2.2]
  · exact (listing_success_iff_some_slot ⟨true, true, true⟩ "Sarees" none none none).2.2
      (fun _ => rfl) (fun _ => rfl) (fun _ => rfl)

/-- C10: translation replaces only free text: the category, the seo tags and
keywords lists, the presence of each optional sub-object and the number of
conversational search phrases are unchanged. -/
theorem translate_preserves_frame (tr : String → String) (content : GeneratedContent) :
    (translate_listing_endpoint tr content).category = content.category ∧
    (translate_listing_endpoint tr content).seo_content.isSome =
      content.seo_content.isSome ∧
    (translate_listing_endpoint tr content).whatsapp_content.isSome =
      content.whatsapp_content.isSome ∧
    (translate_listing_endpoint tr content).conversational_content.isSome =
      content.conversational_content.isSome ∧
    (translate_listing_endpoint tr content).seo_content.map SEOContent.tags =
      content.seo_content.map SEOContent.tags ∧
    (translate_listing_endpoint tr content).seo_content.map SEOContent.keywords =
      content.seo_content.map SEOContent.keywords ∧
    (translate_listing_endpoint tr content).conversational_content.map
        (fun c => c.search_phrases.length) =
      content.conversational_content.map (fun c => c.search_phrases.length) := by
  rcases content with ⟨s, w, c, cat⟩
  cases s <;> cases w <;> cases c <;>
    simp [translate_listing_endpoint]

end Listing

namespace Planner

/-- C6: a festival whose date parses as %Y-%m-%d gets daysLeft set to the
day difference to today (negative for past dates) and its date replaced by
the long-form rendering; no other field changes. -/
theorem festival_date_normalization (today : Date) (f : Festival) (d : Date)
    (h : parseYMD f.date = some d) :
    processFestival today f =
      { f with date := formatLong d, daysLeft := daysBetween today d } := by
  unfold processFestival
  rw [h]

/-- C6 witness: date "2025-01-26" with today fixed at 2025-01-01 gives
daysLeft 25 and the display date "January 26, 2025". -/
theorem festival_date_normalization_witness :
    processFestival ⟨2025, 1, 1⟩ republicDay =
      { republicDay with date := "January 26, 2025", daysLeft := 25 } := by
  rw [festival_date_normalization ⟨2025, 1, 1⟩ republicDay ⟨2025, 1, 26⟩ (by decide)]
  decide

/-- C7: a festival whose date does not parse as %Y-%m-%d passes through the
post-processing entirely unchanged (no exception is possible: the embedding
is a total function), and the four non-festival lists of the report are
returned as parsed in any case. -/
theorem festival_unparseable_passthrough (today : Date) (f : Festival)
    (resp : PlannerResponse) (h : parseYMD f.date = none) :
    processFestival today f = f ∧
    (postProcessReport today resp).topProductsToStock = resp.topProductsToStock ∧
    (postProcessReport today resp).nearbyDemand = resp.nearbyDemand ∧
    (postProcessReport today resp).avoidProducts = resp.avoidProducts ∧
    (postProcessReport today resp).aiRecommendations = resp.aiRecommendations := by
  refine ⟨?_, rfl, rfl, rfl, rfl⟩
  unfold processFestival
  rw [h]

/-- C7 witness: the date "Nov 1, 2025" does not parse and the record is
returned exactly as given. -/
theorem festival_unparseable_passthrough_witness :
    processFestival ⟨2025, 1, 1⟩ bogusFestival = bogusFestival ∧
    (postProcessReport ⟨2025, 1, 1⟩ {}).topProductsToStock =
      PlannerResponse.topProductsToStock {} ∧
    (postProcessReport ⟨2025, 1, 1⟩ {}).nearbyDemand = PlannerResponse.nearbyDemand {} ∧
    (postProcessReport ⟨2025, 1, 1⟩ {}).avoidProducts = PlannerResponse.avoidProducts {} ∧
    (postProcessReport ⟨2025, 1, 1⟩ {}).aiRecommendations =
      PlannerResponse.aiRecommendations {} :=
  festival_unparseable_passthrough ⟨2025, 1, 1⟩ bogusFestival {} (by decide)

end Planner

namespace Dashboard

/-- C8: the dashboard summary makes at most two completion attempts; a
second attempt happens exactly when the first failed with the rate-limit
condition, and then 90 seconds are slept first; when the first attempt
fails rate-limited and the one-shot retry also fails, the hardcoded static
fallback summary is returned. -/
theorem dashboard_retry_policy (attempt : ℕ → Except String AISummary) :
    (get_ai_dashboard_summary attempt).attempts ≤ 2 ∧
    ((get_ai_dashboard_summary attempt).attempts = 2 ↔
      ∃ e, attempt 0 = .error e ∧ isRateLimitError e = true) ∧
    ((get_ai_dashboard_summary attempt).sleptSeconds =
      if (get_ai_dashboard_summary attempt).attempts = 2 then 90 else 0) ∧
    (∀ e1 e2, attempt 0 = .error e1 → isRateLimitError e1 = true →
      attempt 1 = .error e2 →
      (get_ai_dashboard_summary attempt).result = fallbackSummary) := by
  cases h0 : attempt 0 with
  | ok s => simp [get_ai_dashboard_summary, h0]
  | error e =>
    cases hrl : isRateLimitError e with
    | false =>
      have hrun : get_ai_dashboard_summary attempt = ⟨fallbackSummary, 1, 0⟩ := by
        simp [get_ai_dashboard_summary, h0, hrl]
      refine ⟨by simp [hrun], ?_, by simp [hrun], ?_⟩
      · rw [hrun]
        constructor
        · intro hc; exact absurd hc (by norm_num)
        · rintro ⟨e1, he1, hre1⟩
          injection he1 with he
          rw [← he, hrl] at hre1
          cases hre1
      · intro e1 e2 he1 hre1 _
        injection he1 with he
        rw [← he, hrl] at hre1
        cases hre1
    | true =>
      cases h1 : attempt 1 with
      | ok s =>
        have hrun : get_ai_dashboard_summary attempt = ⟨s, 2, 90⟩ := by
          simp [get_ai_dashboard_summary, h0, hrl, h1]
        refine ⟨by simp [hrun], ?_, by simp [hrun], ?_⟩
        · rw [hrun]
          exact ⟨fun _ => ⟨e, rfl, hrl⟩, fun _ => rfl⟩
        · intro e1 e2 _ _ he2
          cases he2
      | error e2 =>
        have hrun : get_ai_dashboard_summary attempt = ⟨fallbackSummary, 2, 90⟩ := by
          simp [get_ai_dashboard_summary, h0, hrl, h1]
        refine ⟨by simp [hrun], ?_, by simp [hrun], ?_⟩
        · rw [hrun]
          exact ⟨fun _ => ⟨e, rfl, hrl⟩, fun _ => rfl⟩
        · intro _ _ _ _ _
          rw [hrun]

/-- C8 witness: both attempts fail with a 429 error: two attempts, a
90-second sleep, and the static fallback with its four fields. -/
theorem dashboard_retry_policy_witness :
    (get_ai_dashboard_summary (fun _ => .error "Error code: 429")).result =
        fallbackSummary ∧
    (get_ai_dashboard_summary (fun _ => .error "Error code: 429")).attempts = 2 ∧
    (get_ai_dashboard_summary (fun _ => .error "Error code: 429")).sleptSeconds = 90 :=
  ⟨(dashboard_retry_policy (fun _ => .error "Error code: 429")).2.2.2
      "Error code: 429" "Error code: 429" rfl (by decide) rfl,
    by decide, by decide⟩

end Dashboard

namespace PlannerLock

/-- No reachable state of the n-request system has two distinct requests
inside the locked generation section. -/
theorem reachable_mutex {n : ℕ} {s : Fin n → Phase} (h : Reachable s) :
    ∀ i j, s i = .generating → s j = .generating → i = j := by
  induction h with
  | refl =>
    intro i j hi _
    exact absurd hi (by simp [start])
  | tail _ hstep ih =>
    rcases hstep with ⟨i0, _, hfree, rfl⟩ | ⟨i0, _, rfl⟩
    · intro i j hi hj
      rcases eq_or_ne i i0 with h1 | hii
      · rcases eq_or_ne j i0 with h2 | hjj
        · rw [h1, h2]
        · rw [Function.update_noteq hjj] at hj
          exact absurd hj (hfree j)
      · rw [Function.update_noteq hii] at hi
        exact absurd hi (hfree i)
    · intro i j hi hj
      rcases eq_or_ne i i0 with h1 | hii
      · rw [h1, Function.update_same] at hi
        cases hi
      · rcases eq_or_ne j i0 with h2 | hjj
        · rw [h2, Function.update_same] at hj
          cases hj
        · rw [Function.update_noteq hii] at hi
          rw [Function.update_noteq hjj] at hj
          exact ih i j hi hj

/-- C9: with n >= 2 concurrent planner-report requests, in every reachable
state at most one request is inside the locked generation section (which
contains the provider call), so no two provider calls of this endpoint
overlap and the requests are served one after another. -/
theorem planner_requests_serialized (n : ℕ) (_hn : 2 ≤ n) (s : Fin n → Phase)
    (h : Reachable s) (i j : Fin n)
    (hi : s i = .generating) (hj : s j = .generating) : i = j :=
  reachable_mutex h i j hi hj

/-- C9 witness: two concurrent requests, the state reached after the first
acquires the lock; the single generating request coincides with itself. -/
theorem planner_requests_serialized_witness : (0 : Fin 2) = 0 :=
  planner_requests_serialized 2 (by norm_num)
    (Function.update (start 2) 0 .generating)
    (Relation.ReflTransGen.single
      (Or.inl ⟨0, rfl, by decide, rfl⟩))
    0 0 (by simp) (by simp)

end PlannerLock

end MCAP
